import Mathlib

/-!
Verification of the tool-behavior / transactional-modification core of a
vector-glyph editor.  The concrete behavior `MoveGuideline` and the layer-list
handlers are translated from the Rust source
(`src/tool_behaviors/move_guideline.rs`, `src/user_interface/mod.rs`); the
`Editor` host (transaction manager, behavior stack, active-layer selection) is
not part of the given sources and is modelled from the specification.
Mouse/guideline coordinates (f32 in the source) are embedded as exact
rationals.
-/

namespace Glif

/-- A 2D point, as the `at` position of a guideline. -/
@[ext]
structure Point where
  x : ℚ
  y : ℚ
  deriving DecidableEq, Repr

/-- Mouse button identifier carried by a `MouseInfo`. -/
inductive MouseButton where
  | Left
  | Middle
  | Right
  deriving DecidableEq, Repr

/-- Keyboard modifier state carried by a `MouseInfo`. -/
@[ext]
structure Modifiers where
  ctrl : Bool
  shift : Bool
  alt : Bool
  deriving DecidableEq, Repr

/-- Snapshot of the pointing device at one instant: position, button and
modifier state (the fields the source reads). -/
@[ext]
structure MouseInfo where
  position : ℚ × ℚ
  button : MouseButton
  modifiers : Modifiers
  deriving DecidableEq, Repr

/-- Semantic sub-type of a mouse event. -/
inductive MouseEventType where
  | Pressed
  | Moved
  | Released
  deriving DecidableEq, Repr

/-- The normalized editor event stream: mouse events with their sub-type and
`MouseInfo`, keyboard events, and the per-frame Ui event. -/
inductive EditorEvent where
  | MouseEvent (event_type : MouseEventType) (mouse_info : MouseInfo)
  | KeyEvent (key : Nat)
  | Ui
  deriving DecidableEq, Repr

/-- A guideline: a named construction line with a 2D position `at`. -/
@[ext]
structure Guideline where
  name : String
  «at» : Point
  deriving DecidableEq, Repr

/-- Optional compositing operation of a layer relative to the layers below. -/
inductive LayerOperation where
  | Difference
  deriving DecidableEq, Repr

/-- A layer: display name, visibility flag, color, optional compositing
operation (the fields the layer-list handlers touch). -/
@[ext]
structure Layer where
  name : String
  visible : Bool
  color : ℚ × ℚ × ℚ × ℚ
  operation : Option LayerOperation
  deriving DecidableEq, Repr

/-- The document: guidelines and layers (the collections the given handlers
mutate). -/
@[ext]
structure Glyph where
  guidelines : List Guideline
  layers : List Layer
  deriving DecidableEq, Repr

/-- Ghost record of one transaction-manager call, used to state how many
transactions a gesture opens and closes. -/
inductive TxnOp where
  | beginTxn (label : String)
  | endTxn
  | beginLayerTxn (label : String)
  | endLayerTxn
  deriving DecidableEq, Repr

/-- Modelled from the spec: the `Interface` argument every behavior handler
receives; the given handlers never read it, so it carries no data. -/
structure Interface where
  deriving DecidableEq, Repr

/-- Modelled from the spec: the Editor dispatch host, absent from the given
sources.  It owns the document, the transaction-open flags, the behavior stack
(top = head, entries are opaque behavior identifiers) and the active-layer
index.  `txnLog` is a ghost trace of every transaction-manager call, appended
to even when a call violates the manager contract (such as `end_modification`
with no transaction open), so that claims counting opens and closes can be
stated. -/
@[ext]
structure Editor where
  glyph : Glyph
  modifying : Bool
  layer_modifying : Bool
  txnLog : List TxnOp
  behaviors : List Nat
  active_layer : Nat
  deriving DecidableEq, Repr

/-- Replace the element at index `i` by its image under `f`; out-of-range
indices leave the list unchanged (the Rust source would panic there, and every
theorem that depends on the element keeps the index in range). -/
def listModify (l : List α) (i : Nat) (f : α → α) : List α :=
  match l, i with
  | [], _ => []
  | a :: as, 0 => f a :: as
  | a :: as, i + 1 => a :: listModify as i f

namespace Editor

/-- Modelled from the spec: pure query of transaction-open status. -/
def is_modifying (v : Editor) : Bool :=
  v.modifying

/-- Modelled from the spec: open a document-wide transaction tagged with a
label; callers guard with `is_modifying`. -/
def begin_modification (v : Editor) (label : String) : Editor :=
  { v with modifying := true, txnLog := v.txnLog ++ [TxnOp.beginTxn label] }

/-- Modelled from the spec: close the currently open transaction and clear the
open status.  Calling it with no transaction open is a contract violation; the
model still records the call in the ghost trace. -/
def end_modification (v : Editor) : Editor :=
  { v with modifying := false, txnLog := v.txnLog ++ [TxnOp.endTxn] }

/-- Modelled from the spec: open a transaction scoped to the active layer. -/
def begin_layer_modification (v : Editor) (label : String) : Editor :=
  { v with layer_modifying := true, txnLog := v.txnLog ++ [TxnOp.beginLayerTxn label] }

/-- Modelled from the spec: close the layer-scoped transaction. -/
def end_layer_modification (v : Editor) : Editor :=
  { v with layer_modifying := false, txnLog := v.txnLog ++ [TxnOp.endLayerTxn] }

/-- Modelled from the spec: scoped mutable access to the whole glyph. -/
def with_glyph_mut (v : Editor) (f : Glyph → Glyph) : Editor :=
  { v with glyph := f v.glyph }

/-- Modelled from the spec: read the active-layer index. -/
def get_active_layer (v : Editor) : Nat :=
  v.active_layer

/-- Modelled from the spec: set the active-layer index. -/
def set_active_layer (v : Editor) (i : Nat) : Editor :=
  { v with active_layer := i }

/-- Modelled from the spec: scoped mutable access to the active layer only. -/
def with_active_layer_mut (v : Editor) (f : Layer → Layer) : Editor :=
  { v with glyph := { v.glyph with layers := listModify v.glyph.layers v.active_layer f } }

/-- Modelled from the spec: remove the top entry of the behavior stack. -/
def pop_behavior (v : Editor) : Editor :=
  { v with behaviors := v.behaviors.tail }

end Editor

/-- The `MoveGuideline` tool behavior: the index of the guideline being moved
and the last stored `MouseInfo`. -/
@[ext]
structure MoveGuideline where
  selected_idx : Nat
  mouse_info : MouseInfo
  deriving DecidableEq, Repr

namespace MoveGuideline

/-- `MoveGuideline::new`. -/
def new (selected_idx : Nat) (mouse_info : MouseInfo) : MoveGuideline :=
  { mouse_info := mouse_info, selected_idx := selected_idx }

/-- `MoveGuideline::mouse_moved`: delta against the previously stored
`MouseInfo` (old minus new), transaction opened if none is, guideline `at`
updated by `x -= delta.0; y += delta.1`, stored `MouseInfo` overwritten. -/
def mouse_moved (self : MoveGuideline) (v : Editor) (_i : Interface)
    (mouse_info : MouseInfo) : MoveGuideline × Editor :=
  let mp := self.mouse_info.position
  let delta := (mp.1 - mouse_info.position.1, mp.2 - mouse_info.position.2)
  let selected := self.selected_idx
  let v := if !v.is_modifying then v.begin_modification ("Move guideline.") else v
  let v := v.with_glyph_mut (fun glyph =>
    { glyph with
        guidelines :=
          listModify glyph.guidelines selected (fun g =>
            { g with «at» := { x := g.«at».x - delta.1, y := g.«at».y + delta.2 } }) })
  ({ self with mouse_info := mouse_info }, v)

/-- `MoveGuideline::mouse_released`: on a button match with the stored
`MouseInfo`, close the transaction and pop the behavior stack. -/
def mouse_released (self : MoveGuideline) (v : Editor) (_i : Interface)
    (mouse_info : MouseInfo) : MoveGuideline × Editor :=
  if mouse_info.button = self.mouse_info.button then
    (self, (v.end_modification).pop_behavior)
  else
    (self, v)

/-- `ToolBehavior::event` for `MoveGuideline`: dispatch on the event kind,
ignore everything that is not a Moved or Released mouse event. -/
def event (self : MoveGuideline) (v : Editor) (i : Interface)
    (ev : EditorEvent) : MoveGuideline × Editor :=
  match ev with
  | EditorEvent.MouseEvent event_type mouse_info =>
    match event_type with
    | MouseEventType.Released => self.mouse_released v i mouse_info
    | MouseEventType.Moved => self.mouse_moved v i mouse_info
    | _ => (self, v)
  | _ => (self, v)

/-- The event kinds `MoveGuideline` dispatches on: Moved and Released mouse
events; the catch-all match arms ignore every other kind. -/
def handles (ev : EditorEvent) : Bool :=
  match ev with
  | EditorEvent.MouseEvent MouseEventType.Moved _ => true
  | EditorEvent.MouseEvent MouseEventType.Released _ => true
  | _ => false

end MoveGuideline

/-- Deliver a sequence of Moved events to a `MoveGuideline`, threading the
behavior state and the editor exactly as the event loop would. -/
def runMoved (i : Interface) :
    MoveGuideline → Editor → List MouseInfo → MoveGuideline × Editor
  | self, v, [] => (self, v)
  | self, v, m :: ms =>
    let r := self.mouse_moved v i m
    runMoved i r.1 r.2 ms

/-- A whole gesture as `MoveGuideline` sees it: the Moved events delivered
between the Pressed that constructed the behavior and the final Released. -/
def runGesture (i : Interface) (self : MoveGuideline) (v : Editor)
    (moves : List MouseInfo) (rel : MouseInfo) : MoveGuideline × Editor :=
  let r := runMoved i self v moves
  r.1.mouse_released r.2 i rel

/-- Sum of the per-event raw pointer deltas (new position minus previous
position) over a sequence of Moved events starting from stored info `m0`. -/
def cumDelta : MouseInfo → List MouseInfo → ℚ × ℚ
  | _, [] => (0, 0)
  | m0, m :: ms =>
    let d := cumDelta m ms
    (m.position.1 - m0.position.1 + d.1, m.position.2 - m0.position.2 + d.2)

/-- The layer-visibility toggle handler of `build_and_check_layer_list`: save
the active layer, activate the clicked layer, toggle its `visible` flag inside
a layer-scoped transaction, restore the active layer. -/
def toggle_layer_visibility (v : Editor) (layer : Nat) : Editor :=
  let active_layer := v.get_active_layer
  let v := v.set_active_layer layer
  let v := v.begin_layer_modification ("Toggled layer visibility.")
  let v := v.with_active_layer_mut (fun layer => { layer with visible := !layer.visible })
  let v := v.end_layer_modification
  v.set_active_layer active_layer

/-- The rename-prompt completion callback of `build_and_check_layer_list`:
save the active layer, activate the clicked layer, set its name inside a
layer-scoped transaction, restore the active layer. -/
def rename_layer_callback (layer : Nat) (editor : Editor) (string : String) : Editor :=
  let active_layer := editor.get_active_layer
  let editor := editor.set_active_layer layer
  let editor := editor.begin_layer_modification ("Renamed layer.")
  let editor := editor.with_active_layer_mut (fun layer => { layer with name := string })
  let editor := editor.end_layer_modification
  editor.set_active_layer active_layer

/-! ### Helper lemmas about `listModify` -/

theorem listModify_congr {l : List α} {i : Nat} {f g : α → α}
    (h : ∀ a, f a = g a) : listModify l i f = listModify l i g := by
  induction l generalizing i with
  | nil => rfl
  | cons a as ih =>
    cases i with
    | zero => simp [listModify, h]
    | succ n => simp [listModify, ih]

theorem listModify_id {l : List α} {i : Nat} : listModify l i (fun a => a) = l := by
  induction l generalizing i with
  | nil => rfl
  | cons a as ih =>
    cases i with
    | zero => rfl
    | succ n => simp [listModify, ih]

theorem listModify_listModify {l : List α} {i : Nat} {f g : α → α} :
    listModify (listModify l i f) i g = listModify l i (fun a => g (f a)) := by
  induction l generalizing i with
  | nil => rfl
  | cons a as ih =>
    cases i with
    | zero => rfl
    | succ n => simp [listModify, ih]

theorem listModify_getElem?_self {l : List α} {i : Nat} {f : α → α} :
    (listModify l i f)[i]? = l[i]?.map f := by
  induction l generalizing i with
  | nil => rfl
  | cons a as ih =>
    cases i with
    | zero => simp [listModify]
    | succ n => simpa [listModify] using ih

theorem listModify_getElem?_ne {l : List α} {i j : Nat} {f : α → α}
    (h : j ≠ i) : (listModify l i f)[j]? = l[j]? := by
  induction l generalizing i j with
  | nil => rfl
  | cons a as ih =>
    cases i with
    | zero =>
      cases j with
      | zero => exact absurd rfl h
      | succ k => simp [listModify]
    | succ n =>
      cases j with
      | zero => simp [listModify]
      | succ k =>
        have hk : k ≠ n := fun hc => h (by simp [hc])
        simpa [listModify] using ih hk

/-! ### Per-event effect of `mouse_moved` -/

/-- Shift a guideline by a raw pointer delta `d` (new minus old position)
the way `mouse_moved` does: `x` moves with the pointer, `y` against it. -/
def shiftGuideline (d : ℚ × ℚ) (g : Guideline) : Guideline :=
  { g with «at» := { x := g.«at».x + d.1, y := g.«at».y - d.2 } }

theorem mouse_moved_fst (self : MoveGuideline) (v : Editor) (i : Interface)
    (m : MouseInfo) :
    (self.mouse_moved v i m).1 = { self with mouse_info := m } := by
  rfl

theorem mouse_moved_guidelines (self : MoveGuideline) (v : Editor) (i : Interface)
    (m : MouseInfo) :
    (self.mouse_moved v i m).2.glyph.guidelines
      = listModify v.glyph.guidelines self.selected_idx
          (shiftGuideline (m.position.1 - self.mouse_info.position.1,
                           m.position.2 - self.mouse_info.position.2)) := by
  simp only [MoveGuideline.mouse_moved, Editor.with_glyph_mut, Editor.begin_modification,
    Editor.is_modifying]
  split <;>
    exact listModify_congr (fun g => by
      simp [shiftGuideline]
      constructor <;> ring)

theorem mouse_moved_modifying (self : MoveGuideline) (v : Editor) (i : Interface)
    (m : MouseInfo) : (self.mouse_moved v i m).2.modifying = true := by
  simp only [MoveGuideline.mouse_moved, Editor.with_glyph_mut, Editor.begin_modification,
    Editor.is_modifying]
  split <;> simp_all

theorem mouse_moved_txnLog (self : MoveGuideline) (v : Editor) (i : Interface)
    (m : MouseInfo) :
    (self.mouse_moved v i m).2.txnLog
      = if v.modifying then v.txnLog
        else v.txnLog ++ [TxnOp.beginTxn "Move guideline."] := by
  simp only [MoveGuideline.mouse_moved, Editor.with_glyph_mut, Editor.begin_modification,
    Editor.is_modifying]
  split <;> simp_all

theorem mouse_moved_layers (self : MoveGuideline) (v : Editor) (i : Interface)
    (m : MouseInfo) : (self.mouse_moved v i m).2.glyph.layers = v.glyph.layers := by
  simp only [MoveGuideline.mouse_moved, Editor.with_glyph_mut, Editor.begin_modification,
    Editor.is_modifying]
  split <;> rfl

theorem mouse_moved_behaviors (self : MoveGuideline) (v : Editor) (i : Interface)
    (m : MouseInfo) : (self.mouse_moved v i m).2.behaviors = v.behaviors := by
  simp only [MoveGuideline.mouse_moved, Editor.with_glyph_mut, Editor.begin_modification,
    Editor.is_modifying]
  split <;> rfl

theorem mouse_moved_active_layer (self : MoveGuideline) (v : Editor) (i : Interface)
    (m : MouseInfo) : (self.mouse_moved v i m).2.active_layer = v.active_layer := by
  simp only [MoveGuideline.mouse_moved, Editor.with_glyph_mut, Editor.begin_modification,
    Editor.is_modifying]
  split <;> rfl

theorem mouse_moved_layer_modifying (self : MoveGuideline) (v : Editor) (i : Interface)
    (m : MouseInfo) : (self.mouse_moved v i m).2.layer_modifying = v.layer_modifying := by
  simp only [MoveGuideline.mouse_moved, Editor.with_glyph_mut, Editor.begin_modification,
    Editor.is_modifying]
  split <;> rfl

/-! ### Aggregate effect of a sequence of Moved events -/

theorem runMoved_fst_selected (i : Interface) (self : MoveGuideline) (v : Editor)
    (ms : List MouseInfo) :
    (runMoved i self v ms).1.selected_idx = self.selected_idx := by
  induction ms generalizing self v with
  | nil => rfl
  | cons m ms ih => simpa [runMoved, mouse_moved_fst] using ih _ _

theorem runMoved_fst_mouse (i : Interface) (self : MoveGuideline) (v : Editor)
    (ms : List MouseInfo) :
    (runMoved i self v ms).1.mouse_info = ms.getLastD self.mouse_info := by
  induction ms generalizing self v with
  | nil => rfl
  | cons m ms ih =>
    simp only [runMoved]
    rw [ih, mouse_moved_fst, List.getLastD_cons]

theorem runMoved_behaviors (i : Interface) (self : MoveGuideline) (v : Editor)
    (ms : List MouseInfo) :
    (runMoved i self v ms).2.behaviors = v.behaviors := by
  induction ms generalizing self v with
  | nil => rfl
  | cons m ms ih =>
    simp only [runMoved]
    rw [ih, mouse_moved_behaviors]

theorem runMoved_active_layer (i : Interface) (self : MoveGuideline) (v : Editor)
    (ms : List MouseInfo) :
    (runMoved i self v ms).2.active_layer = v.active_layer := by
  induction ms generalizing self v with
  | nil => rfl
  | cons m ms ih =>
    simp only [runMoved]
    rw [ih, mouse_moved_active_layer]

theorem runMoved_layer_modifying (i : Interface) (self : MoveGuideline) (v : Editor)
    (ms : List MouseInfo) :
    (runMoved i self v ms).2.layer_modifying = v.layer_modifying := by
  induction ms generalizing self v with
  | nil => rfl
  | cons m ms ih =>
    simp only [runMoved]
    rw [ih, mouse_moved_layer_modifying]

theorem runMoved_layers (i : Interface) (self : MoveGuideline) (v : Editor)
    (ms : List MouseInfo) :
    (runMoved i self v ms).2.glyph.layers = v.glyph.layers := by
  induction ms generalizing self v with
  | nil => rfl
  | cons m ms ih =>
    simp only [runMoved]
    rw [ih, mouse_moved_layers]

theorem runMoved_modifying (i : Interface) (self : MoveGuideline) (v : Editor)
    (ms : List MouseInfo) (h : ms ≠ []) :
    (runMoved i self v ms).2.modifying = true := by
  induction ms generalizing self v with
  | nil => exact absurd rfl h
  | cons m ms ih =>
    cases ms with
    | nil => simpa [runMoved] using mouse_moved_modifying self v i m
    | cons m2 ms2 => simpa [runMoved] using ih _ _ (by simp)

theorem runMoved_txnLog (i : Interface) (self : MoveGuideline) (v : Editor)
    (ms : List MouseInfo) :
    (runMoved i self v ms).2.txnLog
      = if v.modifying ∨ ms = [] then v.txnLog
        else v.txnLog ++ [TxnOp.beginTxn "Move guideline."] := by
  induction ms generalizing self v with
  | nil => simp [runMoved]
  | cons m ms ih =>
    have hlog := mouse_moved_txnLog self v i m
    have hmod := mouse_moved_modifying self v i m
    by_cases hv : v.modifying
    · simp only [runMoved]
      rw [ih]
      simp [hmod, hlog, hv]
    · simp only [runMoved]
      rw [ih]
      simp [hmod, hlog, hv]

theorem cumDelta_getLastD (m0 : MouseInfo) (ms : List MouseInfo) :
    cumDelta m0 ms
      = ((ms.getLastD m0).position.1 - m0.position.1,
         (ms.getLastD m0).position.2 - m0.position.2) := by
  induction ms generalizing m0 with
  | nil => simp [cumDelta]
  | cons m ms ih =>
    simp only [cumDelta, List.getLastD_cons, ih m, Prod.mk.injEq]
    exact ⟨by ring, by ring⟩

theorem runMoved_guidelines (i : Interface) (self : MoveGuideline) (v : Editor)
    (ms : List MouseInfo) :
    (runMoved i self v ms).2.glyph.guidelines
      = listModify v.glyph.guidelines self.selected_idx
          (shiftGuideline (cumDelta self.mouse_info ms)) := by
  induction ms generalizing self v with
  | nil =>
    simp only [runMoved, cumDelta]
    rw [listModify_congr (g := fun a => a), listModify_id]
    intro g
    ext <;> simp [shiftGuideline]
  | cons m ms ih =>
    simp only [runMoved]
    rw [ih, mouse_moved_fst, mouse_moved_guidelines, listModify_listModify]
    apply listModify_congr
    intro g
    ext <;> simp [shiftGuideline, cumDelta] <;> ring

/-- The default on a nonempty list is irrelevant: `getLastD` either returns the
default (empty list) or an element of the list. -/
theorem getLastD_eq_or_mem (l : List α) (d : α) : l.getLastD d = d ∨ l.getLastD d ∈ l := by
  induction l generalizing d with
  | nil => exact Or.inl rfl
  | cons a as ih =>
    rw [List.getLastD_cons]
    rcases ih a with h | h
    · exact Or.inr (by rw [h]; exact List.mem_cons_self a as)
    · exact Or.inr (List.mem_cons_of_mem a h)

/-- The stored button after a run of Moved events that all carry button `b`,
starting from a stored `MouseInfo` with button `b`, is still `b`. -/
theorem runMoved_button (i : Interface) (self : MoveGuideline) (v : Editor)
    (ms : List MouseInfo) (b : MouseButton)
    (h : ∀ m ∈ ms, m.button = b) (h0 : self.mouse_info.button = b) :
    (runMoved i self v ms).1.mouse_info.button = b := by
  rw [runMoved_fst_mouse]
  rcases getLastD_eq_or_mem ms self.mouse_info with hc | hc
  · rw [hc, h0]
  · exact h _ hc

/-! ### Concrete inputs used by the scenario, witnesses and counterexamples -/

/-- No modifier key held. -/
def noMods : Modifiers := { ctrl := false, shift := false, alt := false }

/-- A left-button `MouseInfo` at position `p`. -/
def mouseL (p : ℚ × ℚ) : MouseInfo :=
  { position := p, button := MouseButton.Left, modifiers := noMods }

/-- A right-button `MouseInfo` at position `p`. -/
def mouseR (p : ℚ × ℚ) : MouseInfo :=
  { position := p, button := MouseButton.Right, modifiers := noMods }

/-- The scenario guideline, at (10, 10). -/
def gStart : Guideline := { name := "g", «at» := { x := 10, y := 10 } }

/-- The scenario editor: one guideline at (10, 10), no transaction open, one
behavior (id 7, the running `MoveGuideline`) on the stack. -/
def vStart : Editor :=
  { glyph := { guidelines := [gStart], layers := [] }
    modifying := false
    layer_modifying := false
    txnLog := []
    behaviors := [7]
    active_layer := 0 }

/-- The unused interface argument. -/
def i0 : Interface := {}

/-- The scenario behavior: constructed on the Pressed at (100, 100). -/
def bStart : MoveGuideline := MoveGuideline.new 0 (mouseL (100, 100))

/-- Two sample layers for the layer-list handler claims. -/
def layerA : Layer :=
  { name := "background", visible := true, color := (1, 0, 0, 1), operation := none }

def layerB : Layer :=
  { name := "overlay", visible := false, color := (0, 1, 0, 1),
    operation := some LayerOperation.Difference }

/-- Editor with two layers, layer 0 active, for the layer-list claims. -/
def vLayers : Editor :=
  { glyph := { guidelines := [], layers := [layerA, layerB] }
    modifying := false
    layer_modifying := false
    txnLog := []
    behaviors := []
    active_layer := 0 }

/-- Counts the `begin_modification` records of a transaction trace. -/
def countBegins (log : List TxnOp) : Nat :=
  log.countP (fun op => match op with | TxnOp.beginTxn _ => true | _ => false)

/-! ### Claim C1 -/

/-- Claim C1 counterexample: a gesture whose Pressed is followed immediately by
the matching Released, with zero Moved events, opens no transaction at all
(the trace records no `begin_modification`, only the unguarded
`end_modification`), refuting "exactly one transaction is opened ...
regardless of how many Moved events occur" for the empty Moved sequence. -/
theorem C1_counterexample_empty_gesture :
    ¬ (countBegins (runGesture i0 bStart vStart [] (mouseL (100, 100))).2.txnLog = 1) := by
  simp [runGesture, runMoved, MoveGuideline.mouse_released, Editor.end_modification,
    Editor.pop_behavior, bStart, vStart, mouseL, MoveGuideline.new, countBegins,
    List.countP, List.countP.go]

/-- Claim C1 (amended to gestures with at least one Moved event): between a
Pressed and its matching Released, a gesture with one or more Moved events
opens exactly one transaction (the first Moved event appends the single
`beginTxn` record, later Moved events see `is_modifying` true) and closes
exactly one (the matching Released appends the single `endTxn` record). -/
theorem C1_one_begin_one_end (i : Interface) (idx : Nat) (m0 rel : MouseInfo)
    (v : Editor) (moves : List MouseInfo)
    (hmod : v.is_modifying = false) (hne : moves ≠ [])
    (hbtn : ∀ m ∈ moves, m.button = m0.button) (hrel : rel.button = m0.button) :
    (runGesture i (MoveGuideline.new idx m0) v moves rel).2.txnLog
      = v.txnLog ++ [TxnOp.beginTxn "Move guideline.", TxnOp.endTxn]
    ∧ (runGesture i (MoveGuideline.new idx m0) v moves rel).2.is_modifying = false := by
  have hb : (runMoved i (MoveGuideline.new idx m0) v moves).1.mouse_info.button = m0.button :=
    runMoved_button i _ v moves m0.button hbtn rfl
  have hcond : rel.button = (runMoved i (MoveGuideline.new idx m0) v moves).1.mouse_info.button := by
    rw [hb, hrel]
  have hlog := runMoved_txnLog i (MoveGuideline.new idx m0) v moves
  rw [Editor.is_modifying] at hmod
  simp only [runGesture, MoveGuideline.mouse_released, if_pos hcond]
  constructor
  · simp [Editor.pop_behavior, Editor.end_modification, hlog, hmod, hne]
  · simp [Editor.pop_behavior, Editor.end_modification, Editor.is_modifying]

/-- Claim C1 witness: the gesture Pressed(100,100), Moved(94,100),
Released(94,100), all left-button, starting from the scenario editor. -/
theorem C1_one_begin_one_end_witness :
    (runGesture i0 (MoveGuideline.new 0 (mouseL (100, 100))) vStart
        [mouseL (94, 100)] (mouseL (94, 100))).2.txnLog
      = vStart.txnLog ++ [TxnOp.beginTxn "Move guideline.", TxnOp.endTxn]
    ∧ (runGesture i0 (MoveGuideline.new 0 (mouseL (100, 100))) vStart
        [mouseL (94, 100)] (mouseL (94, 100))).2.is_modifying = false :=
  C1_one_begin_one_end i0 0 (mouseL (100, 100)) (mouseL (94, 100)) vStart
    [mouseL (94, 100)] rfl (by simp)
    (by intro m hm; simp at hm; rw [hm]; rfl) rfl

/-! ### Claim C2 -/

/-- Claim C2 counterexample: the behavior is constructed with the left button;
a Moved event carrying the right button overwrites the stored `MouseInfo`;
the Released carrying the construction-time (left) button is then ignored and
the transaction stays open, refuting the claim for that Released event. -/
theorem C2_counterexample_button_overwritten :
    ¬ ((runGesture i0 (MoveGuideline.new 0 (mouseL (100, 100))) vStart
          [mouseR (94, 100)] (mouseL (94, 100))).2.is_modifying = false) := by
  simp [runGesture, runMoved, MoveGuideline.mouse_moved, MoveGuideline.mouse_released,
    Editor.with_glyph_mut, Editor.begin_modification, Editor.end_modification,
    Editor.pop_behavior, Editor.is_modifying, vStart, mouseL, mouseR, MoveGuideline.new]

/-- Claim C2 (amended): for every Released event whose button equals the
button of the behavior's currently stored `MouseInfo` (the construction-time
button as updated by any intervening Moved events), `mouse_released` closes
the transaction — `is_modifying` becomes false — and removes exactly one
entry, the top one (itself), from the behavior stack. -/
theorem C2_matching_release_closes_and_pops (self : MoveGuideline) (v : Editor)
    (i : Interface) (rel : MouseInfo) (bid : Nat) (rest : List Nat)
    (hbtn : rel.button = self.mouse_info.button) (hstack : v.behaviors = bid :: rest) :
    (self.mouse_released v i rel).2.is_modifying = false
    ∧ (self.mouse_released v i rel).2.behaviors = rest := by
  simp [MoveGuideline.mouse_released, if_pos hbtn, Editor.end_modification,
    Editor.pop_behavior, Editor.is_modifying, hstack]

/-- Claim C2 witness: releasing the left button with stored left-button info,
behavior id 7 on top of the stack. -/
theorem C2_matching_release_closes_and_pops_witness :
    (bStart.mouse_released vStart i0 (mouseL (94, 100))).2.is_modifying = false
    ∧ (bStart.mouse_released vStart i0 (mouseL (94, 100))).2.behaviors = [] :=
  C2_matching_release_closes_and_pops bStart vStart i0 (mouseL (94, 100)) 7 [] rfl rfl

/-! ### Claim C3 -/

/-- Claim C3 counterexample: the behavior is constructed with the left button;
a Moved event carrying the right button overwrites the stored `MouseInfo`;
a Released carrying the right button — which does not equal the construction
button — is then treated as matching: the transaction is closed rather than
left open, refuting the claim for that Released event. -/
theorem C3_counterexample_button_overwritten :
    ¬ ((runGesture i0 (MoveGuideline.new 0 (mouseL (100, 100))) vStart
          [mouseR (94, 100)] (mouseR (94, 94))).2.is_modifying = true) := by
  simp [runGesture, runMoved, MoveGuideline.mouse_moved, MoveGuideline.mouse_released,
    Editor.with_glyph_mut, Editor.begin_modification, Editor.end_modification,
    Editor.pop_behavior, Editor.is_modifying, vStart, mouseL, mouseR, MoveGuideline.new]

/-- Claim C3 (amended): a Released event whose button does not equal the
button of the behavior's currently stored `MouseInfo` (the construction-time
button as updated by any intervening Moved events) changes nothing at all:
`mouse_released` returns the behavior state and the editor — document,
transaction state, behavior stack — unchanged. -/
theorem C3_nonmatching_release_ignored (self : MoveGuideline) (v : Editor)
    (i : Interface) (rel : MouseInfo) (h : rel.button ≠ self.mouse_info.button) :
    self.mouse_released v i rel = (self, v) := by
  simp [MoveGuideline.mouse_released, h]

/-- Claim C3 witness: releasing the right button while the stored button is
the left one leaves behavior and editor untouched. -/
theorem C3_nonmatching_release_ignored_witness :
    bStart.mouse_released vStart i0 (mouseR (94, 100)) = (bStart, vStart) :=
  C3_nonmatching_release_ignored bStart vStart i0 (mouseR (94, 100)) (by decide)

/-! ### Claim C4 -/

/-- Claim C4 counterexample: stored position (100,100), Moved to (94,100), so
the raw pointer delta is (dx, dy) = (−6, 0).  The claim predicts the guideline
at (10,10) moves to (10 − dx, 10 + dy) = (16, 10); the code moves it to
(4, 10) — the x coordinate increases by dx instead of decreasing. -/
theorem C4_counterexample_sign :
    ((bStart.mouse_moved vStart i0 (mouseL (94, 100))).2.glyph.guidelines[0]?
       = some { name := "g", «at» := { x := 4, y := 10 } })
    ∧ ¬ ((bStart.mouse_moved vStart i0 (mouseL (94, 100))).2.glyph.guidelines[0]?
       = some { name := "g", «at» := { x := 16, y := 10 } }) := by
  constructor <;>
    simp [MoveGuideline.mouse_moved, Editor.with_glyph_mut, Editor.begin_modification,
      Editor.is_modifying, listModify, bStart, vStart, gStart, mouseL, MoveGuideline.new] <;>
    norm_num

/-- Claim C4 (amended): for a Moved event with raw pointer delta
(dx, dy) = (new position − previously stored position), the selected
guideline's position changes by (+dx, −dy): its x coordinate increases by the
horizontal pointer delta and its y coordinate decreases by the vertical
pointer delta. -/
theorem C4_delta_applied (self : MoveGuideline) (v : Editor) (i : Interface)
    (m : MouseInfo) (g0 : Guideline)
    (hg : v.glyph.guidelines[self.selected_idx]? = some g0) :
    (self.mouse_moved v i m).2.glyph.guidelines[self.selected_idx]?
      = some { g0 with
          «at» := { x := g0.«at».x + (m.position.1 - self.mouse_info.position.1),
                    y := g0.«at».y - (m.position.2 - self.mouse_info.position.2) } } := by
  rw [mouse_moved_guidelines, listModify_getElem?_self, hg]
  simp [shiftGuideline]

/-- Claim C4 witness: the first scenario move, delta (−6, 0), guideline
(10,10) to (4,10). -/
theorem C4_delta_applied_witness :
    (bStart.mouse_moved vStart i0 (mouseL (94, 100))).2.glyph.guidelines[bStart.selected_idx]?
      = some { gStart with
          «at» := { x := gStart.«at».x + ((mouseL (94, 100)).position.1 - bStart.mouse_info.position.1),
                    y := gStart.«at».y - ((mouseL (94, 100)).position.2 - bStart.mouse_info.position.2) } } :=
  C4_delta_applied bStart vStart i0 (mouseL (94, 100)) gStart rfl

/-! ### Claim C5 -/

/-- Claim C5 counterexample: in the spec scenario (guideline at (10,10),
Pressed at (100,100), Moved to (94,100)) the guideline does not become
(16,10) — the code moves it to (4,10). -/
theorem C5_counterexample_first_move :
    ¬ ((runMoved i0 bStart vStart [mouseL (94, 100)]).2.glyph.guidelines
        = [{ name := "g", «at» := { x := 16, y := 10 } }]) := by
  simp [runMoved, MoveGuideline.mouse_moved, Editor.with_glyph_mut, Editor.begin_modification,
    Editor.is_modifying, listModify, bStart, vStart, gStart, mouseL, MoveGuideline.new]
  norm_num

/-- Claim C5 (amended): guideline at (10,10); Pressed at (100,100); Moved to
(94,100) moves the guideline to (4,10); a further Moved to (94,94) moves it to
(4,16); the matching left-button Released closes the transaction, pops the
behavior, and leaves the final guideline position (4,16). -/
theorem C5_scenario :
    ((runMoved i0 bStart vStart [mouseL (94, 100)]).2.glyph.guidelines
        = [{ name := "g", «at» := { x := 4, y := 10 } }])
    ∧ ((runMoved i0 bStart vStart [mouseL (94, 100), mouseL (94, 94)]).2.glyph.guidelines
        = [{ name := "g", «at» := { x := 4, y := 16 } }])
    ∧ ((runGesture i0 bStart vStart [mouseL (94, 100), mouseL (94, 94)]
          (mouseL (94, 94))).2.is_modifying = false)
    ∧ ((runGesture i0 bStart vStart [mouseL (94, 100), mouseL (94, 94)]
          (mouseL (94, 94))).2.behaviors = [])
    ∧ ((runGesture i0 bStart vStart [mouseL (94, 100), mouseL (94, 94)]
          (mouseL (94, 94))).2.glyph.guidelines
        = [{ name := "g", «at» := { x := 4, y := 16 } }])
    ∧ ((runGesture i0 bStart vStart [mouseL (94, 100), mouseL (94, 94)]
          (mouseL (94, 94))).2.txnLog
        = [TxnOp.beginTxn "Move guideline.", TxnOp.endTxn]) := by
  refine ⟨?_, ?_, ?_, ?_, ?_, ?_⟩ <;>
    simp [runGesture, runMoved, MoveGuideline.mouse_moved, MoveGuideline.mouse_released,
      Editor.with_glyph_mut, Editor.begin_modification, Editor.end_modification,
      Editor.pop_behavior, Editor.is_modifying, listModify, bStart, vStart, gStart,
      mouseL, MoveGuideline.new] <;>
    norm_num

/-! ### Claim C6 -/

/-- Claim C6 (confirmed): each Moved event's delta is computed against the
previously stored `MouseInfo`, which is then overwritten, so the cumulative
change to the selected guideline over a run of Moved events equals the sum of
the per-event raw deltas (`cumDelta`) applied once — x shifted by the summed
horizontal delta, y by the negated summed vertical delta — and two runs that
end in the same final `MouseInfo` (one large step, or the same displacement
split into smaller steps) produce identical behavior and editor states. -/
theorem C6_deltas_sum_and_split_invariance (i : Interface) (idx : Nat)
    (m0 : MouseInfo) (v : Editor) (ms1 ms2 : List MouseInfo) (gl : Guideline)
    (hg : v.glyph.guidelines[idx]? = some gl)
    (hne1 : ms1 ≠ []) (hne2 : ms2 ≠ [])
    (hlast : ms1.getLastD m0 = ms2.getLastD m0) :
    ((runMoved i (MoveGuideline.new idx m0) v ms1).2.glyph.guidelines[idx]?
       = some { gl with «at» := { x := gl.«at».x + (cumDelta m0 ms1).1,
                                  y := gl.«at».y - (cumDelta m0 ms1).2 } })
    ∧ runMoved i (MoveGuideline.new idx m0) v ms1
        = runMoved i (MoveGuideline.new idx m0) v ms2 := by
  have hsel : (MoveGuideline.new idx m0).selected_idx = idx := rfl
  have hmi : (MoveGuideline.new idx m0).mouse_info = m0 := rfl
  constructor
  · have h := runMoved_guidelines i (MoveGuideline.new idx m0) v ms1
    rw [hsel, hmi] at h
    rw [h, listModify_getElem?_self, hg]
    simp [shiftGuideline]
  · have hglyph : (runMoved i (MoveGuideline.new idx m0) v ms1).2.glyph
        = (runMoved i (MoveGuideline.new idx m0) v ms2).2.glyph := by
      apply Glyph.ext
      · rw [runMoved_guidelines, runMoved_guidelines, hmi,
          cumDelta_getLastD, cumDelta_getLastD, hlast]
      · rw [runMoved_layers, runMoved_layers]
    have hfst : (runMoved i (MoveGuideline.new idx m0) v ms1).1
        = (runMoved i (MoveGuideline.new idx m0) v ms2).1 := by
      apply MoveGuideline.ext
      · rw [runMoved_fst_selected, runMoved_fst_selected]
      · rw [runMoved_fst_mouse, runMoved_fst_mouse, hmi, hlast]
    have hsnd : (runMoved i (MoveGuideline.new idx m0) v ms1).2
        = (runMoved i (MoveGuideline.new idx m0) v ms2).2 := by
      apply Editor.ext
      · exact hglyph
      · rw [runMoved_modifying _ _ _ _ hne1, runMoved_modifying _ _ _ _ hne2]
      · rw [runMoved_layer_modifying, runMoved_layer_modifying]
      · rw [runMoved_txnLog, runMoved_txnLog]
        simp [hne1, hne2]
      · rw [runMoved_behaviors, runMoved_behaviors]
      · rw [runMoved_active_layer, runMoved_active_layer]
    exact Prod.ext hfst hsnd

/-- Claim C6 witness: one Moved event with delta (6,6) against two Moved
events with delta (3,3) each, from a press at (0,0). -/
theorem C6_deltas_sum_and_split_invariance_witness :
    ((runMoved i0 (MoveGuideline.new 0 (mouseL (0, 0))) vStart [mouseL (6, 6)]).2.glyph.guidelines[0]?
       = some { gStart with
           «at» := { x := gStart.«at».x + (cumDelta (mouseL (0, 0)) [mouseL (6, 6)]).1,
                     y := gStart.«at».y - (cumDelta (mouseL (0, 0)) [mouseL (6, 6)]).2 } })
    ∧ runMoved i0 (MoveGuideline.new 0 (mouseL (0, 0))) vStart [mouseL (6, 6)]
        = runMoved i0 (MoveGuideline.new 0 (mouseL (0, 0))) vStart
            [mouseL (3, 3), mouseL (6, 6)] :=
  C6_deltas_sum_and_split_invariance i0 0 (mouseL (0, 0)) vStart
    [mouseL (6, 6)] [mouseL (3, 3), mouseL (6, 6)] gStart rfl
    (by simp) (by simp) rfl

/-! ### Claim C7 -/

/-- Claim C7 (confirmed): a layer-scoped edit on layer index L while the
active layer is A — the visibility toggle and the rename-prompt callback —
runs its mutation callback with L active (the state handed to
`with_active_layer_mut` has active layer L, so the edit lands on index L of
the layer list, not on A) and restores A right after
`end_layer_modification`, leaving the active-layer selection unchanged
overall. -/
theorem C7_layer_edit_restores_active (v : Editor) (L A : Nat) (s : String)
    (hA : v.get_active_layer = A) (hAL : A ≠ L) :
    (((v.set_active_layer L).begin_layer_modification ("Toggled layer visibility.")).get_active_layer = L)
    ∧ ((toggle_layer_visibility v L).get_active_layer = A)
    ∧ ((toggle_layer_visibility v L).glyph.layers
        = listModify v.glyph.layers L (fun l => { l with visible := !l.visible }))
    ∧ ((rename_layer_callback L v s).get_active_layer = A)
    ∧ ((rename_layer_callback L v s).glyph.layers
        = listModify v.glyph.layers L (fun l => { l with name := s })) := by
  subst hA
  refine ⟨rfl, ?_, ?_, ?_, ?_⟩ <;>
    simp [toggle_layer_visibility, rename_layer_callback, Editor.get_active_layer,
      Editor.set_active_layer, Editor.begin_layer_modification,
      Editor.end_layer_modification, Editor.with_active_layer_mut]

/-- Claim C7 witness: editing layer 1 while layer 0 is active. -/
theorem C7_layer_edit_restores_active_witness :
    (((vLayers.set_active_layer 1).begin_layer_modification ("Toggled layer visibility.")).get_active_layer = 1)
    ∧ ((toggle_layer_visibility vLayers 1).get_active_layer = 0)
    ∧ ((toggle_layer_visibility vLayers 1).glyph.layers
        = listModify vLayers.glyph.layers 1 (fun l => { l with visible := !l.visible }))
    ∧ ((rename_layer_callback 1 vLayers "renamed").get_active_layer = 0)
    ∧ ((rename_layer_callback 1 vLayers "renamed").glyph.layers
        = listModify vLayers.glyph.layers 1 (fun l => { l with name := "renamed" })) :=
  C7_layer_edit_restores_active vLayers 1 0 "renamed" rfl (by decide)

/-! ### Claim C8 -/

/-- Claim C8 (confirmed): `MoveGuideline::event` returns the behavior state
and the editor — document, transaction state, behavior stack, stored
`selected_idx` and `mouse_info` — unchanged for every event that is not a
Moved or Released mouse event (Pressed mouse events, key events, Ui frame
events). -/
theorem C8_unhandled_events_ignored (self : MoveGuideline) (v : Editor)
    (i : Interface) (ev : EditorEvent) (h : MoveGuideline.handles ev = false) :
    self.event v i ev = (self, v) := by
  cases ev with
  | MouseEvent t m =>
    cases t <;> simp_all [MoveGuideline.handles, MoveGuideline.event]
  | KeyEvent k => rfl
  | Ui => rfl

/-- Claim C8 witness: a Pressed mouse event is ignored by the scenario
behavior. -/
theorem C8_unhandled_events_ignored_witness :
    bStart.event vStart i0 (EditorEvent.MouseEvent MouseEventType.Pressed (mouseL (50, 50)))
      = (bStart, vStart) :=
  C8_unhandled_events_ignored bStart vStart i0
    (EditorEvent.MouseEvent MouseEventType.Pressed (mouseL (50, 50))) rfl

/-! ### Claim C9 -/

/-- Claim C9 (confirmed): `mouse_released` never touches the document — the
glyph, and with it every guideline position, is returned unchanged for
matching and non-matching buttons alike — and never changes the behavior's
own `selected_idx` or stored `mouse_info`. -/
theorem C9_release_never_mutates (self : MoveGuideline) (v : Editor)
    (i : Interface) (rel : MouseInfo) :
    (self.mouse_released v i rel).1 = self
    ∧ (self.mouse_released v i rel).2.glyph = v.glyph := by
  simp only [MoveGuideline.mouse_released]
  split <;> exact ⟨rfl, rfl⟩

/-! ### Claim C10 -/

/-- Claim C10 (confirmed): the layer-visibility toggle replaces the clicked
layer's `visible` flag by its boolean negation, keeps that layer's name,
color and operation, keeps every other layer unchanged, and toggling twice
restores the original layer list. -/
theorem C10_toggle_involutive (v : Editor) (L : Nat) (l0 : Layer)
    (hg : v.glyph.layers[L]? = some l0) :
    ((toggle_layer_visibility v L).glyph.layers[L]?
        = some { name := l0.name, visible := !l0.visible, color := l0.color,
                 operation := l0.operation })
    ∧ (∀ j, j ≠ L → (toggle_layer_visibility v L).glyph.layers[j]? = v.glyph.layers[j]?)
    ∧ ((toggle_layer_visibility (toggle_layer_visibility v L) L).glyph.layers
        = v.glyph.layers) := by
  have hlayers : ∀ w : Editor, (toggle_layer_visibility w L).glyph.layers
      = listModify w.glyph.layers L (fun l => { l with visible := !l.visible }) := by
    intro w
    simp [toggle_layer_visibility, Editor.get_active_layer, Editor.set_active_layer,
      Editor.begin_layer_modification, Editor.end_layer_modification,
      Editor.with_active_layer_mut]
  refine ⟨?_, ?_, ?_⟩
  · rw [hlayers, listModify_getElem?_self, hg]
    rfl
  · intro j hj
    rw [hlayers, listModify_getElem?_ne hj]
  · rw [hlayers, hlayers, listModify_listModify]
    rw [listModify_congr (g := fun a => a), listModify_id]
    intro a
    ext <;> simp

/-- Claim C10 witness: toggling layer 0 of the two-layer editor. -/
theorem C10_toggle_involutive_witness :
    ((toggle_layer_visibility vLayers 0).glyph.layers[0]?
        = some { name := layerA.name, visible := !layerA.visible, color := layerA.color,
                 operation := layerA.operation })
    ∧ (∀ j, j ≠ 0 → (toggle_layer_visibility vLayers 0).glyph.layers[j]? = vLayers.glyph.layers[j]?)
    ∧ ((toggle_layer_visibility (toggle_layer_visibility vLayers 0) 0).glyph.layers
        = vLayers.glyph.layers) :=
  C10_toggle_involutive vLayers 0 layerA rfl

end Glif
